import Mathlib

/-!
Shallow embedding of the golang-tetris rules engine (board.go, main.go,
spritesheet/spritesheet.go) and proofs about the claims of its
specification.  Machine integers of the Go source are modelled as Int
(no overflow is reachable on the 22 x 10 board); the Go globals are
gathered into a single GameState record and every engine operation is a
function on that record.  The per-call results of math/rand are modelled
as a stream of naturals carried in the state: rand.Intn(n) becomes
(stream value) % n, which reaches exactly the values [0, n) that
rand.Intn can produce.
-/

namespace Tetris

/-- Cell values of the grid (Go: type Block int, constants Empty..GraySpecial). -/
inductive Block where
  | Empty
  | Goluboy
  | Siniy
  | Pink
  | Purple
  | Red
  | Yellow
  | Green
  | Gray
  | GoluboySpecial
  | SiniySpecial
  | PinkSpecial
  | PurpleSpecial
  | RedSpecial
  | YellowSpecial
  | GreenSpecial
  | GraySpecial
deriving DecidableEq

/-- Piece kinds (Go: type Piece int; IPiece = 0 .. ZPiece = 6, NoPiece = -1). -/
inductive Piece where
  | IPiece
  | JPiece
  | LPiece
  | OPiece
  | SPiece
  | TPiece
  | ZPiece
  | NoPiece
deriving DecidableEq

open Piece

/-- Conversion Piece(i) used by the bag code for i in [0, 7). -/
def pieceOfNat : Nat → Piece
  | 0 => IPiece
  | 1 => JPiece
  | 2 => LPiece
  | 3 => OPiece
  | 4 => SPiece
  | 5 => TPiece
  | 6 => ZPiece
  | _ => NoPiece

/-- Board coordinate, row 0 is the bottom, col 0 the left (Go: type Point). -/
@[ext]
structure Point where
  row : Int
  col : Int
deriving DecidableEq

/-- The four cells of a tetromino (Go: type Shape [4]Point). -/
@[ext]
structure Shape where
  p0 : Point
  p1 : Point
  p2 : Point
  p3 : Point
deriving DecidableEq

/-- The playfield: 22 rows by 10 columns (Go: type Board [22][10]Block).
The array is modelled as a total function; every access the engine
performs is shown (claim C10) to stay inside rows [0,21], cols [0,9]. -/
def Board := Int → Int → Block

/-- The Go globals that the engine reads and writes, as one record.
rnd is the stream of future math/rand results. -/
@[ext]
structure GameState where
  board : Board
  activeShape : Shape
  currentPiece : Piece
  nextPiece : Piece
  holdPiece : Piece
  canHold : Bool
  rotationState : Int
  score : Int
  gameOver : Bool
  lastMovementWasRotation : Bool
  lastRotationPoint : Shape
  pieceBag : List Piece
  rnd : Nat → Nat

/-- Drops the first n values of a randomness stream (they were consumed). -/
def rndAfter (n : Nat) (r : Nat → Nat) : Nat → Nat := fun k => r (k + n)

/-! ## Geometry (shapes.go part of spritesheet.go) -/

/-- moveShape shifts a shape by a row and column delta (Go: moveShape(r, c, s)). -/
def moveShape (r c : Int) (s : Shape) : Shape :=
  ⟨⟨s.p0.row + r, s.p0.col + c⟩, ⟨s.p1.row + r, s.p1.col + c⟩,
   ⟨s.p2.row + r, s.p2.col + c⟩, ⟨s.p3.row + r, s.p3.col + c⟩⟩

/-- moveShapeDown (Go: moveShape(-1, 0, s)). -/
def moveShapeDown (s : Shape) : Shape := moveShape (-1) 0 s

/-- isGameOver: some cell of the shape lies in the invisible rows 20, 21. -/
def isGameOver (s : Shape) : Bool :=
  decide (20 ≤ s.p0.row) || decide (20 ≤ s.p1.row) ||
  decide (20 ≤ s.p2.row) || decide (20 ≤ s.p3.row)

/-- Spawn shapes of the seven pieces (Go: getShapeFromPiece).  The Go
function panics on NoPiece; that unreachable branch is modelled by a junk
shape and every theorem that spawns a piece assumes the piece is real. -/
def getShapeFromPiece : Piece → Shape
  | LPiece => ⟨⟨1, 0⟩, ⟨1, 1⟩, ⟨1, 2⟩, ⟨0, 0⟩⟩
  | IPiece => ⟨⟨1, 0⟩, ⟨1, 1⟩, ⟨1, 2⟩, ⟨1, 3⟩⟩
  | OPiece => ⟨⟨1, 0⟩, ⟨1, 1⟩, ⟨0, 0⟩, ⟨0, 1⟩⟩
  | TPiece => ⟨⟨1, 0⟩, ⟨1, 1⟩, ⟨1, 2⟩, ⟨0, 1⟩⟩
  | SPiece => ⟨⟨0, 0⟩, ⟨0, 1⟩, ⟨1, 1⟩, ⟨1, 2⟩⟩
  | ZPiece => ⟨⟨1, 0⟩, ⟨1, 1⟩, ⟨0, 1⟩, ⟨0, 2⟩⟩
  | JPiece => ⟨⟨1, 0⟩, ⟨0, 1⟩, ⟨0, 0⟩, ⟨0, 2⟩⟩
  | NoPiece => ⟨⟨0, 0⟩, ⟨0, 0⟩, ⟨0, 0⟩, ⟨0, 0⟩⟩

/-- Clockwise rotation of a shape (Go: rotateShape).  The Go function
reads the global currentPiece, passed here explicitly.  The Go rotation
cache keyed by (piece, rotation state, direction) is a memoization of
this pure computation and is not modelled; Go integer division (which
truncates toward zero) is Int.tdiv. -/
def rotateShape (currentPiece : Piece) (s : Shape) : Shape :=
  if currentPiece = OPiece then s
  else if currentPiece = IPiece then
    let pivotRow := Int.tdiv (s.p1.row + s.p2.row) 2
    let pivotCol := Int.tdiv (s.p1.col + s.p2.col) 2
    let f : Point → Point := fun q =>
      ⟨pivotRow - (q.col - pivotCol), pivotCol + (q.row - pivotRow)⟩
    ⟨f s.p0, f s.p1, f s.p2, f s.p3⟩
  else
    let pivot := s.p1
    let f : Point → Point := fun q =>
      ⟨pivot.row - (pivot.col - q.col), pivot.col + (pivot.row - q.row)⟩
    ⟨f s.p0, pivot, f s.p2, f s.p3⟩

/-- Counter-clockwise rotation (Go: rotateShapeCounterClockwise). -/
def rotateShapeCounterClockwise (currentPiece : Piece) (s : Shape) : Shape :=
  if currentPiece = OPiece then s
  else if currentPiece = IPiece then
    let pivotRow := Int.tdiv (s.p1.row + s.p2.row) 2
    let pivotCol := Int.tdiv (s.p1.col + s.p2.col) 2
    let f : Point → Point := fun q =>
      ⟨pivotRow + (q.col - pivotCol), pivotCol - (q.row - pivotRow)⟩
    ⟨f s.p0, f s.p1, f s.p2, f s.p3⟩
  else
    let pivot := s.p1
    let f : Point → Point := fun q =>
      ⟨pivot.row + (pivot.col - q.col), pivot.col - (pivot.row - q.row)⟩
    ⟨f s.p0, pivot, f s.p2, f s.p3⟩

/-! ## Wall kick tables (spritesheet.go) -/

/-- Kick offsets: each entry is a Go [2]int, (kick0, kick1); rotatePiece
applies them as moveShape(kick1, kick0, shape). -/
abbrev Kick := Int × Int

/-- wallKickData (Go).  The table is indexed by the pre-rotation state;
indexing with a state outside [0,3] would panic in Go and is modelled by
the empty list. -/
def wallKickData (piece : Piece) (state : Int) (direction : Int) : List Kick :=
  if piece = IPiece then
    let kicksClockwise : Int → List Kick := fun st =>
      if st = 0 then
        [(0, 0), (-2, 0), (1, 0), (-2, -1), (1, 2), (-2, 2), (1, -2), (3, 0),
         (-3, 0), (2, 3), (-2, -3)]
      else if st = 1 then
        [(0, 0), (-1, 0), (2, 0), (-1, 2), (2, -1), (-2, -2), (3, 1), (3, -1),
         (-3, -1), (0, 3), (0, -3)]
      else if st = 2 then
        [(0, 0), (2, 0), (-1, 0), (2, 1), (-1, -2), (2, -2), (-3, 0), (3, 2),
         (-1, -3), (4, 0), (-4, 0)]
      else if st = 3 then
        [(0, 0), (1, 0), (-2, 0), (1, -2), (-2, 1), (2, 2), (-3, 1), (-3, -3),
         (3, -1), (0, 3), (0, -3)]
      else []
    let kicksCounterClockwise : Int → List Kick := fun st =>
      if st = 0 then
        [(0, 0), (-1, 0), (2, 0), (-1, 2), (2, -1), (-2, 2), (3, 0), (1, -3),
         (-3, 1), (3, 3), (-3, -3)]
      else if st = 1 then
        [(0, 0), (2, 0), (-1, 0), (2, 1), (-1, -2), (-2, -2), (3, 2), (-3, 0),
         (1, 3), (3, -3), (-3, 3)]
      else if st = 2 then
        [(0, 0), (1, 0), (-2, 0), (1, -2), (-2, 1), (2, -2), (-3, -1), (3, 0),
         (-1, 3), (4, 0), (-4, 0)]
      else if st = 3 then
        [(0, 0), (-2, 0), (1, 0), (-2, -1), (1, 2), (2, 2), (-3, 0), (3, -2),
         (-1, -3), (0, 3), (0, -3)]
      else []
    if direction = 1 then kicksClockwise state else kicksCounterClockwise state
  else if piece ≠ OPiece then
    let kicksClockwise : Int → List Kick := fun st =>
      if st = 0 then
        [(0, 0), (-1, 0), (-1, 1), (0, -2), (-1, -2), (-2, 0), (-2, 1), (0, -3),
         (-1, -3), (-2, -2), (2, 0)]
      else if st = 1 then
        [(0, 0), (1, 0), (1, -1), (0, 2), (1, 2), (2, 0), (2, -1), (0, 3),
         (1, 3), (2, 2), (-2, 0)]
      else if st = 2 then
        [(0, 0), (1, 0), (1, 1), (0, -2), (1, -2), (2, 0), (2, 1), (0, -3),
         (1, -3), (2, -2), (-2, 0)]
      else if st = 3 then
        [(0, 0), (-1, 0), (-1, -1), (0, 2), (-1, 2), (-2, 0), (-2, -1), (0, 3),
         (-1, 3), (-2, 2), (2, 0)]
      else []
    let kicksCounterClockwise : Int → List Kick := fun st =>
      if st = 0 then
        [(0, 0), (1, 0), (1, 1), (0, -2), (1, -2), (2, 0), (2, 1), (0, -3),
         (1, -3), (2, -2), (-2, 0)]
      else if st = 1 then
        [(0, 0), (-1, 0), (-1, -1), (0, 2), (-1, 2), (-2, 0), (-2, -1), (0, 3),
         (-1, 3), (-2, 2), (2, 0)]
      else if st = 2 then
        [(0, 0), (-1, 0), (-1, 1), (0, -2), (-1, -2), (-2, 0), (-2, 1), (0, -3),
         (-1, -3), (-2, -2), (2, 0)]
      else if st = 3 then
        [(0, 0), (1, 0), (1, -1), (0, 2), (1, 2), (2, 0), (2, -1), (0, 3),
         (1, 3), (2, 2), (-2, 0)]
      else []
    if direction = 1 then kicksClockwise state else kicksCounterClockwise state
  else
    [(0, 0)]

/-- getExtraIKicks (Go).  All eight table rows hold the same 12 offsets;
the Go code still indexes by state (panicking outside [0,3], modelled as
the empty list). -/
def getExtraIKicks (state : Int) (direction : Int) : List Kick :=
  let row : List Kick :=
    [(-3, 3), (3, 3), (3, -3), (-3, -3), (4, 2), (4, -2), (-4, 2), (-4, -2),
     (2, 4), (2, -4), (-2, 4), (-2, -4)]
  let table : Int → List Kick := fun st =>
    if st = 0 then row else if st = 1 then row
    else if st = 2 then row else if st = 3 then row else []
  if direction = 1 then table state else table state

/-- Last resort kicks tried by rotatePiece after both kick tables fail. -/
def lastResortKicks : List Kick :=
  [(0, 4), (4, 0), (0, -4), (-4, 0), (3, 3), (-3, 3), (3, -3), (-3, -3),
   (5, 0), (0, 5), (-5, 0), (0, -5)]

/-! ## Board primitives (board.go) -/

/-- setPiece writes one cell (Go: setPiece(r, c, val)). -/
def setPiece (b : Board) (r c : Int) (val : Block) : Board :=
  fun r2 c2 => if r2 = r ∧ c2 = c then val else b r2 c2

/-- fillShape writes the four cells of a shape (Go: fillShape). -/
def fillShape (b : Board) (s : Shape) (val : Block) : Board :=
  setPiece (setPiece (setPiece (setPiece b s.p0.row s.p0.col val)
    s.p1.row s.p1.col val) s.p2.row s.p2.col val) s.p3.row s.p3.col val

/-- drawPiece (Go): sets four cells to t.  The loop body indexes the
global activeShape, not the parameter s, so s is ignored (claim C9);
activeShape is the value of that global. -/
def drawPiece (b : Board) (activeShape : Shape) (s : Shape) (t : Block) : Board :=
  setPiece (setPiece (setPiece (setPiece b activeShape.p0.row activeShape.p0.col t)
    activeShape.p1.row activeShape.p1.col t)
    activeShape.p2.row activeShape.p2.col t)
    activeShape.p3.row activeShape.p3.col t

/-- collision test of one cell: outside rows [0,21], cols [0,9], or a
non-Empty cell. -/
def cellBlocked (b : Board) (q : Point) : Bool :=
  decide (q.row < 0) || decide (21 < q.row) || decide (q.col < 0) ||
  decide (9 < q.col) || decide (b q.row q.col ≠ Block.Empty)

/-- checkCollision (Go): some of the 4 cells of s is blocked. -/
def checkCollision (b : Board) (s : Shape) : Bool :=
  cellBlocked b s.p0 || cellBlocked b s.p1 || cellBlocked b s.p2 || cellBlocked b s.p3

/-- One iteration of the deleteRow loop: copy row (row+1) onto row, for
the ten real columns. -/
def copyRowDown (b : Board) (row : Int) : Board :=
  fun r2 c2 => if r2 = row ∧ 0 ≤ c2 ∧ c2 ≤ 9 then b (row + 1) c2 else b r2 c2

/-- The deleteRow loop, processing rows row, row+1, ..., in ascending
order, k iterations (Go: for r := row; r < 21; r++). -/
def deleteRowAux (row : Int) : Nat → Board → Board
  | 0, b => b
  | k + 1, b => deleteRowAux (row + 1) k (copyRowDown b row)

/-- deleteRow (Go): shifts every row above the given row down by one. -/
def deleteRow (b : Board) (row : Int) : Board :=
  deleteRowAux row (21 - row).toNat b

/-- Full-row test of checkRowCompletion: the row scan records whether an
Empty cell was found in columns 0..9. -/
def rowFull (b : Board) (r : Int) : Bool :=
  !((List.range 10).any fun c => decide (b r (Int.ofNat c) = Block.Empty))

/-- One pass of checkRowCompletion over the four (not necessarily
distinct) rows of the locked shape, deleting each row found full;
returns the board and the running deleteRowCt. -/
def clearPass (s : Shape) (b : Board) (ct : Nat) : Board × Nat :=
  let step : Board × Nat → Int → Board × Nat := fun acc r =>
    if rowFull acc.1 r then (deleteRow acc.1 r, acc.2 + 1) else acc
  step (step (step (step (b, ct) s.p0.row) s.p1.row) s.p2.row) s.p3.row

/-- The outer repeat-until-no-delete loop of checkRowCompletion.  The Go
loop runs until a pass deletes nothing; fuel 23 covers every board
reachable in play (at most 22 rows can ever be deleted there). -/
def clearLoop (s : Shape) : Nat → Board → Nat → Board × Nat
  | 0, b, ct => (b, ct)
  | fuel + 1, b, ct =>
    let r := clearPass s b ct
    if r.2 = ct then r else clearLoop s fuel r.1 r.2

/-- isTSpin (Go, main.go): T piece, last successful action a rotation,
and at least 3 of the 4 diagonal neighbours of the pivot blocked. -/
def isTSpin (st : GameState) : Bool :=
  if st.currentPiece ≠ TPiece || !st.lastMovementWasRotation then false
  else
    let centerRow := st.activeShape.p1.row
    let centerCol := st.activeShape.p1.col
    let blockedAt : Int → Int → Nat := fun r c =>
      if r < 0 ∨ 22 ≤ r ∨ c < 0 ∨ 10 ≤ c ∨ st.board r c ≠ Block.Empty then 1 else 0
    let blockedCorners :=
      blockedAt (centerRow + 1) (centerCol + 1) + blockedAt (centerRow + 1) (centerCol - 1) +
      blockedAt (centerRow - 1) (centerCol + 1) + blockedAt (centerRow - 1) (centerCol - 1)
    decide (3 ≤ blockedCorners)

/-- The score delta the tail of checkRowCompletion adds for one lock
event, as a function of deleteRowCt and the T-spin verdict. -/
def lockScoreDelta (deleteRowCt : Nat) (tSpin : Bool) : Int :=
  if 0 < deleteRowCt then
    let baseScore : Int := 100 * deleteRowCt
    let baseScore := if 1 < deleteRowCt then baseScore * deleteRowCt else baseScore
    let baseScore := if tSpin then baseScore * (deleteRowCt + 1) + 400 else baseScore
    baseScore
  else if tSpin then 100 else 0

/-- checkRowCompletion (Go): T-spin verdict first, then the iterated
row-clear loop over the rows of the locked shape, then the score update;
finally the rotation flag is reset. -/
def checkRowCompletion (st : GameState) (s : Shape) : GameState :=
  let tSpin := isTSpin st
  let r := clearLoop s 23 st.board 0
  { st with board := r.1,
            score := st.score + lockScoreDelta r.2 tSpin,
            lastMovementWasRotation := false }

/-! ## Randomizer (main.go) -/

/-- The bag before shuffling: one of each piece, Piece(0) .. Piece(6). -/
def allPieces : List Piece :=
  [IPiece, JPiece, LPiece, OPiece, SPiece, TPiece, ZPiece]

/-- One Fisher-Yates swap: pieceBag[i], pieceBag[j] = pieceBag[j], pieceBag[i]. -/
def swapList {α : Type} (l : List α) (i j : Nat) : List α :=
  match l[i]?, l[j]? with
  | some a, some b => (l.set i b).set j a
  | _, _ => l

/-- initializeBag (Go): the Fisher-Yates loop for i = 6 down to 1 with
j = rand.Intn(i+1), unrolled; returns the shuffled bag. -/
def initializeBagList (r : Nat → Nat) : List Piece :=
  let a := allPieces
  let a := swapList a 6 (r 0 % 7)
  let a := swapList a 5 (r 1 % 6)
  let a := swapList a 4 (r 2 % 5)
  let a := swapList a 3 (r 3 % 4)
  let a := swapList a 2 (r 4 % 3)
  let a := swapList a 1 (r 5 % 2)
  a

/-- initializeBag acting on the state: consumes 6 randomness values. -/
def initializeBag (st : GameState) : GameState :=
  { st with pieceBag := initializeBagList st.rnd, rnd := rndAfter 6 st.rnd }

/-- getNextPiece (Go): refill when the bag is empty, take the front, pop
it, refilling immediately when it was the last piece.  The emergency
fallback (random piece if the bag is somehow still empty) is dead code
but modelled faithfully. -/
def getNextPiece (st : GameState) : Piece × GameState :=
  let st1 := if st.pieceBag.isEmpty then initializeBag st else st
  match st1.pieceBag with
  | [] => (pieceOfNat (st1.rnd 0 % 7), { st1 with rnd := rndAfter 1 st1.rnd })
  | p :: rest =>
    if rest.isEmpty then (p, initializeBag st1)
    else (p, { st1 with pieceBag := rest })

/-- n successive getNextPiece calls, collecting the drawn pieces. -/
def drawsN : Nat → GameState → List Piece × GameState
  | 0, st => ([], st)
  | n + 1, st =>
    let r1 := getNextPiece st
    let r2 := drawsN n r1.2
    (r1.1 :: r2.1, r2.2)

/-! ## Engine operations (board.go) -/

/-- piece2Block (Go).  The NoPiece branch panics in Go and then would
return GraySpecial; modelled by that value. -/
def piece2Block : Piece → Block
  | LPiece => Block.Goluboy
  | IPiece => Block.Siniy
  | OPiece => Block.Pink
  | TPiece => Block.Purple
  | SPiece => Block.Red
  | ZPiece => Block.Yellow
  | JPiece => Block.Green
  | NoPiece => Block.GraySpecial

/-- The rand.Intn bound of the spawn offset chosen by addPiece (and by
the holdPiece swap branch, which repeats the same if/else chain):
rand.Intn(7) for the I piece, rand.Intn(9) for the O piece, rand.Intn(8)
otherwise. -/
def spawnIntnBound (p : Piece) : Nat :=
  if p = IPiece then 7 else if p = OPiece then 9 else 8

/-- addPiece (Go): random horizontal offset, spawn shape moved up by 20
rows, painted on the board, made active; then the next piece is drawn
from the bag and the rotation state reset. -/
def addPiece (st : GameState) : GameState :=
  let offset : Int := Int.ofNat (st.rnd 0 % spawnIntnBound st.nextPiece)
  let st := { st with rnd := rndAfter 1 st.rnd }
  let baseShape := moveShape 20 offset (getShapeFromPiece st.nextPiece)
  let st := { st with board := fillShape st.board baseShape (piece2Block st.nextPiece),
                      currentPiece := st.nextPiece,
                      activeShape := baseShape }
  let r := getNextPiece st
  { r.2 with nextPiece := r.1, rotationState := 0 }

/-- movePiece (Go): erase, try a one-column translation, commit only
when free, redraw, report success. -/
def movePiece (st : GameState) (dir : Int) : Bool × GameState :=
  let blockType := st.board st.activeShape.p0.row st.activeShape.p0.col
  let b1 := drawPiece st.board st.activeShape st.activeShape Block.Empty
  let newShape := moveShape 0 dir st.activeShape
  if checkCollision b1 newShape then
    (false, { st with board := drawPiece b1 st.activeShape st.activeShape blockType })
  else
    let st := { st with activeShape := newShape, lastMovementWasRotation := false }
    (true, { st with board := drawPiece b1 st.activeShape st.activeShape blockType })

/-- The kick loop of rotatePiece: first offset whose kicked shape does
not collide, or none. -/
def tryKicks (b : Board) (newShape : Shape) : List Kick → Option Shape
  | [] => none
  | k :: rest =>
    let kickedShape := moveShape k.2 k.1 newShape
    if checkCollision b kickedShape then tryKicks b newShape rest
    else some kickedShape

/-- Rotation state update of rotatePiece: Go % truncates (Int.tmod),
then negative results are shifted into [0,3]. -/
def normRot (r : Int) : Int :=
  let r2 := Int.tmod r 4
  if r2 < 0 then r2 + 4 else r2

/-- rotatePiece (Go): refuse the O piece; erase; record the pre-rotation
shape in lastRotationPoint; rotate; try the standard kicks, then the
extra kicks, then the last resort kicks, committing the first
non-colliding candidate; redraw; report success. -/
def rotatePiece (st : GameState) (direction : Int) : Bool × GameState :=
  if st.currentPiece = OPiece then (false, st)
  else
    let blockType := st.board st.activeShape.p0.row st.activeShape.p0.col
    let b1 := drawPiece st.board st.activeShape st.activeShape Block.Empty
    let st := { st with lastRotationPoint := st.activeShape }
    let newShape :=
      if direction = 1 then rotateShape st.currentPiece st.activeShape
      else rotateShapeCounterClockwise st.currentPiece st.activeShape
    let attempt :=
      (tryKicks b1 newShape (wallKickData st.currentPiece st.rotationState direction)).or
        ((tryKicks b1 newShape (getExtraIKicks st.rotationState direction)).or
          (tryKicks b1 newShape lastResortKicks))
    match attempt with
    | some sh =>
      let st := { st with activeShape := sh,
                          rotationState := normRot (st.rotationState + direction),
                          lastMovementWasRotation := true }
      (true, { st with board := drawPiece b1 st.activeShape st.activeShape blockType })
    | none =>
      (false, { st with board := drawPiece b1 st.activeShape st.activeShape blockType })

/-- applyGravity (Go): erase, move down when free (clearing the rotation
flag), redraw, report whether the downward move collided. -/
def applyGravity (st : GameState) : Bool × GameState :=
  let blockType := st.board st.activeShape.p0.row st.activeShape.p0.col
  let b1 := drawPiece st.board st.activeShape st.activeShape Block.Empty
  let didCollide := checkCollision b1 (moveShapeDown st.activeShape)
  let st :=
    if didCollide then st
    else { st with activeShape := moveShapeDown st.activeShape,
                   lastMovementWasRotation := false }
  (didCollide, { st with board := drawPiece b1 st.activeShape st.activeShape blockType })

/-- lockPiece (Go): in the game-over case only the flag is set; else
clear rows, spawn, re-enable hold. -/
def lockPiece (st : GameState) : GameState :=
  if isGameOver st.activeShape then { st with gameOver := true }
  else
    let st := checkRowCompletion st st.activeShape
    let st := addPiece st
    { st with canHold := true }

/-- The gravity loop of instafall.  The Go loop ends at the first
collision; 23 iterations suffice from any in-board position since every
non-colliding step lowers the shape by one row. -/
def instafallAux : Nat → GameState → GameState
  | 0, st => st
  | n + 1, st =>
    let r := applyGravity st
    if r.1 then r.2 else instafallAux n r.2

/-- instafall (Go): gravity until collision, then lock. -/
def instafall (st : GameState) : GameState :=
  lockPiece (instafallAux 23 st)

/-- holdPiece (Go), named holdPieceOp since the hold slot itself is the
GameState field holdPiece.  The swap branch repeats the spawn-offset
if/else chain of addPiece (spawnIntnBound). -/
def holdPieceOp (st : GameState) : GameState :=
  if !st.canHold then st
  else
    let st := { st with board := drawPiece st.board st.activeShape st.activeShape Block.Empty }
    if st.holdPiece = NoPiece then
      let st := { st with holdPiece := st.currentPiece }
      let st := addPiece st
      { st with canHold := false }
    else
      let tempPiece := st.holdPiece
      let st := { st with holdPiece := st.currentPiece }
      let offset : Int := Int.ofNat (st.rnd 0 % spawnIntnBound tempPiece)
      let st := { st with rnd := rndAfter 1 st.rnd }
      let baseShape := moveShape 20 offset (getShapeFromPiece tempPiece)
      { st with board := fillShape st.board baseShape (piece2Block tempPiece),
                currentPiece := tempPiece,
                activeShape := baseShape,
                rotationState := 0,
                canHold := false }

/-! ## Basic lemmas -/

/-- Membership of a cell among the four cells of a shape. -/
def inShape (s : Shape) (r c : Int) : Bool :=
  (r = s.p0.row && c = s.p0.col) || (r = s.p1.row && c = s.p1.col) ||
  (r = s.p2.row && c = s.p2.col) || (r = s.p3.row && c = s.p3.col)

theorem drawPiece_apply (b : Board) (a s : Shape) (t : Block) (r c : Int) :
    drawPiece b a s t r c = if inShape a r c then t else b r c := by
  unfold drawPiece setPiece inShape
  split_ifs <;> simp_all <;> tauto

theorem fillShape_apply (b : Board) (s : Shape) (t : Block) (r c : Int) :
    fillShape b s t r c = if inShape s r c then t else b r c := by
  unfold fillShape setPiece inShape
  split_ifs <;> simp_all <;> tauto

theorem moveShape_zero (s : Shape) : moveShape 0 0 s = s := by
  cases s; simp [moveShape]

/-- getNextPiece touches only the bag and the randomness stream. -/
theorem getNextPiece_core (st : GameState) :
    (getNextPiece st).2.board = st.board ∧
    (getNextPiece st).2.activeShape = st.activeShape ∧
    (getNextPiece st).2.currentPiece = st.currentPiece ∧
    (getNextPiece st).2.nextPiece = st.nextPiece ∧
    (getNextPiece st).2.holdPiece = st.holdPiece ∧
    (getNextPiece st).2.canHold = st.canHold ∧
    (getNextPiece st).2.rotationState = st.rotationState ∧
    (getNextPiece st).2.score = st.score ∧
    (getNextPiece st).2.gameOver = st.gameOver ∧
    (getNextPiece st).2.lastMovementWasRotation = st.lastMovementWasRotation ∧
    (getNextPiece st).2.lastRotationPoint = st.lastRotationPoint := by
  unfold getNextPiece initializeBag
  dsimp only
  split <;> split <;> simp_all <;> split <;> simp_all

/-! ## Claim C9 -/

/-- C9: drawPiece(s, t) writes t into the four cells addressed by the
global active shape and ignores its shape argument s entirely, so it
produces the same board as drawPiece(activeShape, t). -/
theorem c9_drawPiece_ignores_argument :
    ∀ (b : Board) (active s : Shape) (t : Block),
      drawPiece b active s t = drawPiece b active active t ∧
      ∀ r c, drawPiece b active s t r c = if inShape active r c then t else b r c := by
  intro b active s t
  exact ⟨rfl, fun r c => drawPiece_apply b active s t r c⟩

/-! ## Claim C4 -/

/-- Score delta written exactly after the words of the specification
table: N=0 gives 100 for a T-spin else 0; otherwise the base is 100*N,
times N when N>1, and a T-spin multiplies by (N+1) and adds 400. -/
def specScoreDelta (n : Nat) (tSpin : Bool) : Int :=
  if n = 0 then (if tSpin then 100 else 0)
  else
    let base : Int := if 1 < n then 100 * n * n else 100 * n
    if tSpin then base * (n + 1) + 400 else base

/-- C4: the score delta of a single lock event in checkRowCompletion
obeys the stated formula for every cleared-line count and T-spin
verdict; in particular 1 line gives 100, 4 lines 1600, a 1-line T-spin
600, a 0-line T-spin 100, and nothing otherwise. -/
theorem c4_lock_score_formula :
    (∀ (n : Nat) (t : Bool), lockScoreDelta n t = specScoreDelta n t) ∧
    (∀ st s, (checkRowCompletion st s).score =
      st.score + lockScoreDelta (clearLoop s 23 st.board 0).2 (isTSpin st)) ∧
    lockScoreDelta 1 false = 100 ∧ lockScoreDelta 4 false = 1600 ∧
    lockScoreDelta 1 true = 600 ∧ lockScoreDelta 0 true = 100 ∧
    lockScoreDelta 0 false = 0 := by
  refine ⟨?_, fun st s => rfl, by decide, by decide, by decide, by decide, by decide⟩
  intro n t
  rcases n with _ | _ | n <;> cases t <;> simp [lockScoreDelta, specScoreDelta]

/-! ## Claim C2 -/

/-- C2 counterexample: the I piece draws its spawn offset from
rand.Intn(7) and the O piece from rand.Intn(9), so the O piece, not the
I piece, has the widest offset range, refuting the claim at these two
pieces. -/
theorem c2_counterexample :
    spawnIntnBound Piece.IPiece = 7 ∧ spawnIntnBound Piece.OPiece = 9 ∧
    ¬ spawnIntnBound Piece.OPiece ≤ spawnIntnBound Piece.IPiece := by
  decide

/-- C2 amended: in addPiece the I piece draws from the narrowest offset
range (rand.Intn(7)), the O piece from the widest (rand.Intn(9)), every
other piece from the middle range (rand.Intn(8)), and the piece is
placed at the fixed vertical spawn offset 20 into the buffer. -/
theorem c2_amended_spawn_ranges :
    spawnIntnBound Piece.IPiece = 7 ∧ spawnIntnBound Piece.OPiece = 9 ∧
    (∀ p, p ≠ Piece.IPiece → p ≠ Piece.OPiece → spawnIntnBound p = 8) ∧
    ∀ st, (addPiece st).activeShape =
      moveShape 20 (Int.ofNat (st.rnd 0 % spawnIntnBound st.nextPiece))
        (getShapeFromPiece st.nextPiece) := by
  refine ⟨rfl, rfl, ?_, ?_⟩
  · intro p h1 h2; simp [spawnIntnBound, h1, h2]
  · intro st
    show (addPiece st).activeShape = _
    unfold addPiece
    simp only [(getNextPiece_core _).2.1]

/-- Witness for the amended C2 at a concrete piece and state. -/
theorem c2_amended_spawn_ranges_witness :
    spawnIntnBound Piece.TPiece = 8 ∧ spawnIntnBound Piece.SPiece = 8 :=
  ⟨c2_amended_spawn_ranges.2.2.1 Piece.TPiece (by decide) (by decide),
   c2_amended_spawn_ranges.2.2.1 Piece.SPiece (by decide) (by decide)⟩

/-! ## Claim C8 -/

/-- C8: if lockPiece runs while some cell of the active shape has row at
least 20, the only effect is setting the game-over flag: the grid,
score, pieces, hold gate and every other component are untouched. -/
theorem c8_lock_gameOver (st : GameState)
    (h : 20 ≤ st.activeShape.p0.row ∨ 20 ≤ st.activeShape.p1.row ∨
         20 ≤ st.activeShape.p2.row ∨ 20 ≤ st.activeShape.p3.row) :
    lockPiece st = { st with gameOver := true } := by
  have hg : isGameOver st.activeShape = true := by
    unfold isGameOver
    rcases h with h | h | h | h <;> simp [h]
  unfold lockPiece
  rw [hg]
  simp

/-- A state whose active piece reaches the buffer rows. -/
def c8st : GameState :=
  { board := fun r c =>
      if (r = 21 ∧ (c = 0 ∨ c = 1 ∨ c = 2)) ∨ (r = 20 ∧ c = 0)
      then Block.Goluboy else Block.Empty,
    activeShape := ⟨⟨21, 0⟩, ⟨21, 1⟩, ⟨21, 2⟩, ⟨20, 0⟩⟩,
    currentPiece := Piece.LPiece, nextPiece := Piece.TPiece,
    holdPiece := Piece.NoPiece, canHold := false, rotationState := 0,
    score := 0, gameOver := false, lastMovementWasRotation := false,
    lastRotationPoint := ⟨⟨0, 0⟩, ⟨0, 0⟩, ⟨0, 0⟩, ⟨0, 0⟩⟩,
    pieceBag := [], rnd := fun _ => 0 }

/-- Witness for C8 at a concrete state. -/
theorem c8_lock_gameOver_witness :
    lockPiece c8st = { c8st with gameOver := true } :=
  c8_lock_gameOver c8st (by decide)

/-! ## Claim C3 -/

theorem deleteRowAux_apply (k : Nat) (row : Int) (b : Board) (r c : Int)
    (hc1 : 0 ≤ c) (hc2 : c ≤ 9) :
    deleteRowAux row k b r c =
      if row ≤ r ∧ r < row + k then b (r + 1) c else b r c := by
  induction k generalizing row b with
  | zero =>
    rw [deleteRowAux, if_neg]
    omega
  | succ k ih =>
    rw [deleteRowAux, ih]
    unfold copyRowDown
    split_ifs with h1 h2 h3 h4 h5 <;> first
      | rfl
      | omega
      | (obtain ⟨h, -, -⟩ := h3; rw [h])
      | (obtain ⟨h, -, -⟩ := h5; rw [h])

/-- A board whose only occupied cell is in the top buffer row 21. -/
def c3bad : Board := fun r c =>
  if r = 21 ∧ c = 0 then Block.Gray else Block.Empty

/-- C3 counterexample: deleteRow does not clear the topmost row to
Empty; on a board whose row 21 holds a block, deleting row 0 leaves that
block in row 21 untouched. -/
theorem c3_counterexample :
    deleteRow c3bad 0 21 0 = c3bad 21 0 ∧ deleteRow c3bad 0 21 0 ≠ Block.Empty := by
  constructor <;> decide

/-- Board of the concrete row-clear scenario: row 5 fully occupied (the
just-locked piece contributing columns 0-3), row 6 occupied except
column 9, two cells in row 0, everything else Empty. -/
def b5 : Board := fun r c =>
  if 0 ≤ c ∧ c ≤ 9 ∧ (r = 5 ∨ (r = 6 ∧ c ≤ 8) ∨ (r = 0 ∧ (c = 0 ∨ c = 3)))
  then Block.Gray else Block.Empty

/-- The just-locked shape of the scenario, touching row 5. -/
def s5 : Shape := ⟨⟨5, 0⟩, ⟨5, 1⟩, ⟨5, 2⟩, ⟨5, 3⟩⟩

/-- State of the concrete row-clear scenario. -/
def st5 : GameState :=
  { board := b5, activeShape := s5, currentPiece := Piece.IPiece,
    nextPiece := Piece.TPiece, holdPiece := Piece.NoPiece, canHold := true,
    rotationState := 0, score := 0, gameOver := false,
    lastMovementWasRotation := false,
    lastRotationPoint := ⟨⟨0, 0⟩, ⟨0, 0⟩, ⟨0, 0⟩, ⟨0, 0⟩⟩,
    pieceBag := [], rnd := fun _ => 0 }

/-- C3 amended: deleteRow(row) copies every row from row+1 up to 21 one
row down and leaves the topmost row 21 unchanged (rather than clearing
it); it therefore stays Empty exactly when it already was Empty, as in
every board reachable at clear time.  In the concrete scenario (row 5
full, the locked piece touching row 5) checkRowCompletion deletes
exactly one row, rows 6-21 shift down by one, and row 21 ends Empty. -/
theorem c3_amended_row_shift :
    (∀ (b : Board) (row : Int), 0 ≤ row → ∀ r c : Int, 0 ≤ c → c ≤ 9 →
       deleteRow b row r c = if row ≤ r ∧ r ≤ 20 then b (r + 1) c else b r c)
    ∧ (clearLoop s5 23 b5 0).2 = 1
    ∧ (∀ r : Fin 22, ∀ c : Fin 10, (checkRowCompletion st5 s5).board r c =
        if 5 ≤ (r : Int) then b5 ((r : Int) + 1) c else b5 r c)
    ∧ (∀ c : Fin 10, (checkRowCompletion st5 s5).board 21 c = Block.Empty) := by
  refine ⟨?_, by decide, by decide, by decide⟩
  intro b row hrow r c hc1 hc2
  rw [deleteRow, deleteRowAux_apply _ _ _ _ _ hc1 hc2]
  split_ifs <;> first | rfl | omega

/-- Witness for the general part of the amended C3 at concrete inputs. -/
theorem c3_amended_row_shift_witness :
    deleteRow c3bad 5 7 3 = if (5 : Int) ≤ 7 ∧ (7 : Int) ≤ 20 then c3bad 8 3 else c3bad 7 3 :=
  c3_amended_row_shift.1 c3bad 5 (by decide) 7 3 (by decide) (by decide)

/-! ## Claim C1 -/

/-- Four clockwise rotations of a non-O non-I piece about its fixed
pivot return the shape unchanged. -/
theorem rotateShape_four (p : Piece) (hO : p ≠ OPiece) (hI : p ≠ IPiece) (s : Shape) :
    rotateShape p (rotateShape p (rotateShape p (rotateShape p s))) = s := by
  simp only [rotateShape, if_neg hO, if_neg hI]
  ext <;> dsimp <;> ring

/-- The state after one clockwise rotatePiece call. -/
def rotateOnce (st : GameState) : GameState := (rotatePiece st 1).2

/-- The in-place (zero kick) clockwise rotation of the current shape
does not collide on the erased board: no kick is needed. -/
abbrev zeroKickFree (st : GameState) : Prop :=
  checkCollision (drawPiece st.board st.activeShape st.activeShape Block.Empty)
    (rotateShape st.currentPiece st.activeShape) = false

theorem wallKickData_head_JLSTZ (p : Piece) (hI : p ≠ IPiece) (hO : p ≠ OPiece)
    (s : Int) (hs : s = 0 ∨ s = 1 ∨ s = 2 ∨ s = 3) :
    ∃ rest, wallKickData p s 1 = (0, 0) :: rest := by
  rcases hs with rfl | rfl | rfl | rfl <;>
    · unfold wallKickData
      rw [if_neg hI, if_pos hO]
      exact ⟨_, rfl⟩

theorem tryKicks_zero_head (b : Board) (ns : Shape) (rest : List Kick)
    (h : checkCollision b ns = false) :
    tryKicks b ns ((0, 0) :: rest) = some ns := by
  unfold tryKicks
  simp only [moveShape_zero, h]
  rfl

/-- When the zero kick heads the standard kick list and its candidate is
free, rotatePiece(+1) commits exactly the plain rotation and advances
the rotation state. -/
theorem rotatePiece_zero_kick (st : GameState)
    (hO : st.currentPiece ≠ OPiece)
    (hhead : ∃ rest, wallKickData st.currentPiece st.rotationState 1 = (0, 0) :: rest)
    (hfree : zeroKickFree st) :
    (rotatePiece st 1).1 = true ∧
    (rotateOnce st).activeShape = rotateShape st.currentPiece st.activeShape ∧
    (rotateOnce st).rotationState = normRot (st.rotationState + 1) ∧
    (rotateOnce st).currentPiece = st.currentPiece := by
  obtain ⟨rest, hk⟩ := hhead
  unfold rotateOnce rotatePiece
  rw [if_neg hO]
  dsimp only
  rw [if_pos rfl, hk, tryKicks_zero_head _ _ _ hfree]
  exact ⟨rfl, rfl, rfl, rfl⟩

/-- C1 amended: for every piece kind except O and I, starting from
rotation state 0 with the active shape on a board where none of the four
successive clockwise rotations needs a kick, four rotatePiece(+1) calls
return the active shape to its original four points and the rotation
state to 0.  (The I piece is excluded: its truncated-midpoint pivot
drifts the shape, see the counterexample.) -/
theorem c1_amended_rotation_closure (st : GameState)
    (hO : st.currentPiece ≠ OPiece) (hI : st.currentPiece ≠ IPiece)
    (hrs : st.rotationState = 0)
    (h1 : zeroKickFree st) (h2 : zeroKickFree (rotateOnce st))
    (h3 : zeroKickFree (rotateOnce (rotateOnce st)))
    (h4 : zeroKickFree (rotateOnce (rotateOnce (rotateOnce st)))) :
    (rotateOnce (rotateOnce (rotateOnce (rotateOnce st)))).activeShape = st.activeShape ∧
    (rotateOnce (rotateOnce (rotateOnce (rotateOnce st)))).rotationState = 0 := by
  obtain ⟨-, e1s, e1r, e1p⟩ := rotatePiece_zero_kick st hO
    (wallKickData_head_JLSTZ _ hI hO _ (Or.inl hrs)) h1
  rw [hrs] at e1r
  have e1r : (rotateOnce st).rotationState = 1 := by rw [e1r]; decide
  obtain ⟨-, e2s, e2r, e2p⟩ := rotatePiece_zero_kick (rotateOnce st) (e1p ▸ hO)
    (wallKickData_head_JLSTZ _ (e1p ▸ hI) (e1p ▸ hO) _ (Or.inr (Or.inl e1r))) h2
  rw [e1r] at e2r
  have e2r : (rotateOnce (rotateOnce st)).rotationState = 2 := by rw [e2r]; decide
  obtain ⟨-, e3s, e3r, e3p⟩ := rotatePiece_zero_kick (rotateOnce (rotateOnce st))
    (e2p ▸ e1p ▸ hO)
    (wallKickData_head_JLSTZ _ (e2p ▸ e1p ▸ hI) (e2p ▸ e1p ▸ hO) _
      (Or.inr (Or.inr (Or.inl e2r)))) h3
  rw [e2r] at e3r
  have e3r : (rotateOnce (rotateOnce (rotateOnce st))).rotationState = 3 := by
    rw [e3r]; decide
  obtain ⟨-, e4s, e4r, e4p⟩ := rotatePiece_zero_kick (rotateOnce (rotateOnce (rotateOnce st)))
    (e3p ▸ e2p ▸ e1p ▸ hO)
    (wallKickData_head_JLSTZ _ (e3p ▸ e2p ▸ e1p ▸ hI) (e3p ▸ e2p ▸ e1p ▸ hO) _
      (Or.inr (Or.inr (Or.inr e3r)))) h4
  rw [e3r] at e4r
  constructor
  · simp only [e1s, e2s, e3s, e4s, e1p, e2p, e3p]
    exact rotateShape_four st.currentPiece hO hI st.activeShape
  · rw [e4r]; decide

/-- The board of the C1 I-piece counterexample: an I piece lying at rows
10, columns 3-6, on an otherwise empty board. -/
def c1board : Board := fun r c =>
  if r = 10 ∧ (c = 3 ∨ c = 4 ∨ c = 5 ∨ c = 6) then Block.Siniy else Block.Empty

/-- The C1 counterexample state. -/
def c1st : GameState :=
  { board := c1board,
    activeShape := ⟨⟨10, 3⟩, ⟨10, 4⟩, ⟨10, 5⟩, ⟨10, 6⟩⟩,
    currentPiece := Piece.IPiece, nextPiece := Piece.TPiece,
    holdPiece := Piece.NoPiece, canHold := true, rotationState := 0,
    score := 0, gameOver := false, lastMovementWasRotation := false,
    lastRotationPoint := ⟨⟨0, 0⟩, ⟨0, 0⟩, ⟨0, 0⟩, ⟨0, 0⟩⟩,
    pieceBag := [], rnd := fun _ => 0 }

/-- C1 counterexample: the I piece (spawn shape, rotation state 0, open
board, every rotation committing through the zero kick, so no kicks
were needed) does not return to its original points after four
rotatePiece(+1) calls; the truncating integer midpoint drifts it two
rows down, although the rotation state does return to 0. -/
theorem c1_counterexample :
    c1st.currentPiece = Piece.IPiece ∧ c1st.rotationState = 0 ∧
    zeroKickFree c1st ∧ zeroKickFree (rotateOnce c1st) ∧
    zeroKickFree (rotateOnce (rotateOnce c1st)) ∧
    zeroKickFree (rotateOnce (rotateOnce (rotateOnce c1st))) ∧
    (rotateOnce (rotateOnce (rotateOnce (rotateOnce c1st)))).rotationState = 0 ∧
    (rotateOnce (rotateOnce (rotateOnce (rotateOnce c1st)))).activeShape ≠
      c1st.activeShape := by
  refine ⟨rfl, rfl, by decide, by decide, by decide, by decide, by decide, by decide⟩

/-- The T piece state used to witness the amended C1. -/
def c1wst : GameState :=
  { c1st with
    board := fun r c =>
      if (r = 11 ∧ (c = 3 ∨ c = 4 ∨ c = 5)) ∨ (r = 10 ∧ c = 4)
      then Block.Purple else Block.Empty,
    activeShape := ⟨⟨11, 3⟩, ⟨11, 4⟩, ⟨11, 5⟩, ⟨10, 4⟩⟩,
    currentPiece := Piece.TPiece }

/-- Witness for the amended C1: a T piece mid-board on an open board. -/
theorem c1_amended_rotation_closure_witness :
    (rotateOnce (rotateOnce (rotateOnce (rotateOnce c1wst)))).activeShape =
      c1wst.activeShape ∧
    (rotateOnce (rotateOnce (rotateOnce (rotateOnce c1wst)))).rotationState = 0 :=
  c1_amended_rotation_closure c1wst (by decide) (by decide) rfl
    (by decide) (by decide) (by decide) (by decide)

/-! ## Claim C7 -/

theorem tryKicks_eq_find (b : Board) (ns : Shape) (l : List Kick) :
    tryKicks b ns l =
      (l.map fun k => moveShape k.2 k.1 ns).find? fun sh => !checkCollision b sh := by
  induction l with
  | nil => rfl
  | cons k rest ih =>
    rw [List.map_cons]
    unfold tryKicks
    cases h : checkCollision b (moveShape k.2 k.1 ns) <;>
      simp [List.find?_cons, h, ih]

theorem tryKicks_cons (b : Board) (ns : Shape) (k : Kick) (rest : List Kick) :
    tryKicks b ns (k :: rest) =
      if checkCollision b (moveShape k.2 k.1 ns) then tryKicks b ns rest
      else some (moveShape k.2 k.1 ns) := rfl

theorem tryKicks_append (b : Board) (ns : Shape) (l1 l2 : List Kick) :
    tryKicks b ns (l1 ++ l2) = (tryKicks b ns l1).or (tryKicks b ns l2) := by
  induction l1 with
  | nil => simp [tryKicks]
  | cons k rest ih =>
    rw [List.cons_append, tryKicks_cons, tryKicks_cons]
    cases h : checkCollision b (moveShape k.2 k.1 ns) <;> simp [h, ih, Option.or]

/-- The board with the active piece erased, as rotatePiece computes it. -/
def erasedBoard (st : GameState) : Board :=
  drawPiece st.board st.activeShape st.activeShape Block.Empty

/-- The rotated (not yet kicked) shape rotatePiece works with. -/
def rotatedShape (st : GameState) (direction : Int) : Shape :=
  if direction = 1 then rotateShape st.currentPiece st.activeShape
  else rotateShapeCounterClockwise st.currentPiece st.activeShape

/-- Every candidate placement rotatePiece may try, in the order it tries
them: the standard kick list, then the extra kicks, then the last resort
kicks, each applied to the rotated shape. -/
def rotCandidates (st : GameState) (direction : Int) : List Shape :=
  ((wallKickData st.currentPiece st.rotationState direction ++
      (getExtraIKicks st.rotationState direction ++ lastResortKicks)).map
    fun k => moveShape k.2 k.1 (rotatedShape st direction))

/-- C7: for every non-O piece kind, rotation state and direction the
kick list starts with the zero offset, and rotatePiece commits exactly
the first candidate of the concatenated kick tiers whose shape does not
collide (find? over the ordered candidate list), trying none after it;
its success flag is the existence of such a candidate. -/
theorem c7_zero_head_first_match :
    (∀ p, p ≠ OPiece → p ≠ NoPiece → ∀ s : Int, (s = 0 ∨ s = 1 ∨ s = 2 ∨ s = 3) →
      ∀ d : Int, (d = 1 ∨ d = -1) → (wallKickData p s d).head? = some (0, 0)) ∧
    (∀ st (d : Int), st.currentPiece ≠ OPiece →
      (rotatePiece st d).1 =
        ((rotCandidates st d).find? fun sh => !checkCollision (erasedBoard st) sh).isSome ∧
      ∀ sh, ((rotCandidates st d).find? fun sh2 => !checkCollision (erasedBoard st) sh2) =
          some sh → (rotatePiece st d).2.activeShape = sh) := by
  constructor
  · intro p hO hN s hs d hd
    by_cases hp : p = IPiece
    · subst hp
      rcases hs with rfl | rfl | rfl | rfl <;> rcases hd with rfl | rfl <;> rfl
    · unfold wallKickData
      rw [if_neg hp, if_pos hO]
      rcases hs with rfl | rfl | rfl | rfl <;> rcases hd with rfl | rfl <;> rfl
  · intro st d hO
    have hcand : (tryKicks (erasedBoard st) (rotatedShape st d)
        (wallKickData st.currentPiece st.rotationState d)).or
          ((tryKicks (erasedBoard st) (rotatedShape st d)
            (getExtraIKicks st.rotationState d)).or
            (tryKicks (erasedBoard st) (rotatedShape st d) lastResortKicks)) =
        (rotCandidates st d).find? fun sh => !checkCollision (erasedBoard st) sh := by
      rw [← tryKicks_append, ← tryKicks_append, rotCandidates, ← tryKicks_eq_find]
    unfold rotatePiece
    rw [if_neg hO]
    dsimp only
    rw [show (if d = 1 then rotateShape st.currentPiece st.activeShape
        else rotateShapeCounterClockwise st.currentPiece st.activeShape) =
        rotatedShape st d from rfl]
    rw [show drawPiece st.board st.activeShape st.activeShape Block.Empty =
        erasedBoard st from rfl]
    rw [hcand]
    cases hfind : (rotCandidates st d).find? fun sh => !checkCollision (erasedBoard st) sh with
    | none => exact ⟨rfl, by intro sh h; exact absurd h (by simp)⟩
    | some sh0 => exact ⟨rfl, by intro sh h; cases h; rfl⟩

/-- State used to witness C7: a T piece mid-board. -/
def c7st : GameState :=
  { board := fun r c =>
      if (r = 8 ∧ (c = 2 ∨ c = 3 ∨ c = 4)) ∨ (r = 7 ∧ c = 3)
      then Block.Purple else Block.Empty,
    activeShape := ⟨⟨8, 2⟩, ⟨8, 3⟩, ⟨8, 4⟩, ⟨7, 3⟩⟩,
    currentPiece := Piece.TPiece, nextPiece := Piece.SPiece,
    holdPiece := Piece.NoPiece, canHold := true, rotationState := 0,
    score := 0, gameOver := false, lastMovementWasRotation := false,
    lastRotationPoint := ⟨⟨0, 0⟩, ⟨0, 0⟩, ⟨0, 0⟩, ⟨0, 0⟩⟩,
    pieceBag := [], rnd := fun _ => 0 }

/-- Witness for C7 at concrete inputs. -/
theorem c7_zero_head_first_match_witness :
    (wallKickData Piece.TPiece 2 (-1)).head? = some (0, 0) ∧
    (rotatePiece c7st 1).1 =
      ((rotCandidates c7st 1).find? fun sh => !checkCollision (erasedBoard c7st) sh).isSome :=
  ⟨c7_zero_head_first_match.1 Piece.TPiece (by decide) (by decide) 2 (by tauto) (-1) (by tauto),
   (c7_zero_head_first_match.2 c7st 1 (by decide)).1⟩

/-! ## Claim C5 -/

/-- The four cells of the active shape hold one common block value on
the board (true in every reachable state: the piece was painted with its
own colour). -/
abbrev activeUniform (st : GameState) : Prop :=
  st.board st.activeShape.p1.row st.activeShape.p1.col =
    st.board st.activeShape.p0.row st.activeShape.p0.col ∧
  st.board st.activeShape.p2.row st.activeShape.p2.col =
    st.board st.activeShape.p0.row st.activeShape.p0.col ∧
  st.board st.activeShape.p3.row st.activeShape.p3.col =
    st.board st.activeShape.p0.row st.activeShape.p0.col

/-- Erasing the active cells and redrawing them with the block value read
from the first cell restores the board exactly. -/
theorem draw_erase_restore (b : Board) (sh : Shape)
    (hu : b sh.p1.row sh.p1.col = b sh.p0.row sh.p0.col ∧
          b sh.p2.row sh.p2.col = b sh.p0.row sh.p0.col ∧
          b sh.p3.row sh.p3.col = b sh.p0.row sh.p0.col) :
    drawPiece (drawPiece b sh sh Block.Empty) sh sh (b sh.p0.row sh.p0.col) = b := by
  funext r c
  rw [drawPiece_apply, drawPiece_apply]
  cases h : inShape sh r c
  · simp
  · have h2 := h
    unfold inShape at h2
    simp only [Bool.or_eq_true, Bool.and_eq_true, decide_eq_true_eq] at h2
    simp only [h, if_true]
    rcases h2 with (((⟨hr, hc⟩ | ⟨hr, hc⟩) | ⟨hr, hc⟩) | ⟨hr, hc⟩)
    · rw [hr, hc]
    · rw [hr, hc]; exact hu.1.symm
    · rw [hr, hc]; exact hu.2.1.symm
    · rw [hr, hc]; exact hu.2.2.symm

/-- C5 amended: a movePiece whose candidate collides returns false and
leaves the whole engine state unchanged, and rotatePiece on the O piece
does the same; a rotatePiece on a non-O piece whose every candidate
collides returns false and leaves everything unchanged except the
recorded pre-rotation shape lastRotationPoint, which it has already
overwritten with the shape active at the call (the code sets it before
trying any kick and does not restore it on failure). -/
theorem c5_amended_failed_ops (st : GameState) (dir : Int) (hu : activeUniform st) :
    ((movePiece st dir).1 = false → (movePiece st dir).2 = st) ∧
    (st.currentPiece = OPiece → rotatePiece st dir = (false, st)) ∧
    (st.currentPiece ≠ OPiece → (rotatePiece st dir).1 = false →
      (rotatePiece st dir).2 = { st with lastRotationPoint := st.activeShape }) := by
  refine ⟨?_, ?_, ?_⟩
  · unfold movePiece
    dsimp only
    cases h : checkCollision (drawPiece st.board st.activeShape st.activeShape Block.Empty)
        (moveShape 0 dir st.activeShape)
    · rw [if_neg (by simp [h])]
      intro habs
      exact absurd habs (by simp)
    · rw [if_pos (by simp [h])]
      intro _
      show { st with board := _ } = st
      rw [draw_erase_restore st.board st.activeShape hu]
  · intro hO
    unfold rotatePiece
    rw [if_pos hO]
  · intro hO
    unfold rotatePiece
    rw [if_neg hO]
    dsimp only
    cases hA : (tryKicks (drawPiece st.board st.activeShape st.activeShape Block.Empty)
        (if dir = 1 then rotateShape st.currentPiece st.activeShape
         else rotateShapeCounterClockwise st.currentPiece st.activeShape)
        (wallKickData st.currentPiece st.rotationState dir)).or
        ((tryKicks (drawPiece st.board st.activeShape st.activeShape Block.Empty)
          (if dir = 1 then rotateShape st.currentPiece st.activeShape
           else rotateShapeCounterClockwise st.currentPiece st.activeShape)
          (getExtraIKicks st.rotationState dir)).or
          (tryKicks (drawPiece st.board st.activeShape st.activeShape Block.Empty)
            (if dir = 1 then rotateShape st.currentPiece st.activeShape
             else rotateShapeCounterClockwise st.currentPiece st.activeShape)
            lastResortKicks)) with
    | some sh =>
      intro habs
      simp at habs
    | none =>
      intro _
      refine GameState.ext ?_ rfl rfl rfl rfl rfl rfl rfl rfl rfl rfl rfl rfl
      exact draw_erase_restore st.board st.activeShape hu
  
/-- The C5 counterexample state: a T piece in a cavity of an otherwise
completely full board (every candidate placement of a rotation
collides), with lastRotationPoint holding some older shape. -/
def c5st : GameState :=
  { board := fun r c =>
      if 0 ≤ r ∧ r ≤ 21 ∧ 0 ≤ c ∧ c ≤ 9 then
        (if (r = 11 ∧ (c = 3 ∨ c = 4 ∨ c = 5)) ∨ (r = 10 ∧ c = 4)
         then Block.Purple else Block.Gray)
      else Block.Empty,
    activeShape := ⟨⟨11, 3⟩, ⟨11, 4⟩, ⟨11, 5⟩, ⟨10, 4⟩⟩,
    currentPiece := Piece.TPiece, nextPiece := Piece.SPiece,
    holdPiece := Piece.NoPiece, canHold := true, rotationState := 0,
    score := 0, gameOver := false, lastMovementWasRotation := false,
    lastRotationPoint := ⟨⟨0, 0⟩, ⟨0, 0⟩, ⟨0, 0⟩, ⟨0, 0⟩⟩,
    pieceBag := [], rnd := fun _ => 0 }

/-- C5 counterexample: a rotatePiece call whose every candidate
placement collides returns false but does not leave the state unchanged:
the recorded pre-rotation shape lastRotationPoint differs after the
failed call from its value before it. -/
theorem c5_counterexample :
    (rotatePiece c5st 1).1 = false ∧
    (rotatePiece c5st 1).2.lastRotationPoint ≠ c5st.lastRotationPoint := by
  constructor <;> decide

/-- A state whose piece stands against the left wall: moving left fails. -/
def c5wm : GameState :=
  { c5st with
    board := fun r c =>
      if c = 0 ∧ (r = 5 ∨ r = 6 ∨ r = 7 ∨ r = 8) then Block.Siniy else Block.Empty,
    activeShape := ⟨⟨5, 0⟩, ⟨6, 0⟩, ⟨7, 0⟩, ⟨8, 0⟩⟩,
    currentPiece := Piece.IPiece }

/-- A state holding the O piece. -/
def c5wo : GameState :=
  { c5st with
    board := fun r c =>
      if (r = 5 ∨ r = 6) ∧ (c = 0 ∨ c = 1) then Block.Pink else Block.Empty,
    activeShape := ⟨⟨6, 0⟩, ⟨6, 1⟩, ⟨5, 0⟩, ⟨5, 1⟩⟩,
    currentPiece := Piece.OPiece }

/-- Witness for the amended C5 at concrete states. -/
theorem c5_amended_failed_ops_witness :
    (movePiece c5wm (-1)).2 = c5wm ∧
    rotatePiece c5wo 1 = (false, c5wo) ∧
    (rotatePiece c5st 1).2 = { c5st with lastRotationPoint := c5st.activeShape } :=
  ⟨(c5_amended_failed_ops c5wm (-1) (by decide)).1 (by decide),
   (c5_amended_failed_ops c5wo 1 (by decide)).2.1 rfl,
   (c5_amended_failed_ops c5st 1 (by decide)).2.2 (by decide) (by decide)⟩

/-! ## Claim C6 -/

theorem swapList_perm {α : Type} [DecidableEq α] (l : List α) (i j : Nat) :
    (swapList l i j).Perm l := by
  unfold swapList
  cases hi : l[i]? with
  | none => exact List.Perm.refl l
  | some a =>
    cases hj : l[j]? with
    | none => exact List.Perm.refl l
    | some b =>
      obtain ⟨hi1, hi2⟩ := List.getElem?_eq_some.mp hi
      obtain ⟨hj1, hj2⟩ := List.getElem?_eq_some.mp hj
      have hj1s : j < (l.set i b).length := by simpa using hj1
      rw [List.perm_iff_count]
      intro x
      rw [List.count_set a x _ _ hj1s, List.count_set b x l i hi1,
        List.getElem_set hj1s, hi2, hj2, ite_self]
      simp only [beq_iff_eq]
      by_cases ha : a = x
      · have h1 : 1 ≤ List.count x l := by
          apply List.count_pos_iff.mpr
          rw [← ha, ← hi2]
          exact List.getElem_mem hi1
        by_cases hb : b = x <;> simp [ha, hb] <;> omega
      · by_cases hb : b = x <;> simp [ha, hb] <;> omega

theorem initializeBagList_perm (r : Nat → Nat) :
    (initializeBagList r).Perm allPieces := by
  unfold initializeBagList
  exact (swapList_perm _ _ _).trans ((swapList_perm _ _ _).trans
    ((swapList_perm _ _ _).trans ((swapList_perm _ _ _).trans
      ((swapList_perm _ _ _).trans (swapList_perm _ _ _)))))

theorem mem_allPieces_ne_NoPiece : ∀ p ∈ allPieces, p ≠ NoPiece := by decide

theorem initializeBagList_valid (r : Nat → Nat) :
    ∀ p ∈ initializeBagList r, p ≠ NoPiece := fun p hp =>
  mem_allPieces_ne_NoPiece p ((initializeBagList_perm r).mem_iff.mp hp)

theorem pieceOfNat_lt_ne : ∀ n < 7, pieceOfNat n ≠ NoPiece := by decide

/-- getNextPiece on any state whose bag holds no NoPiece sentinel (every
reachable state) returns a real piece, and the new bag again holds no
sentinel. -/
theorem getNextPiece_valid (st : GameState) (h : ∀ p ∈ st.pieceBag, p ≠ NoPiece) :
    (getNextPiece st).1 ≠ NoPiece ∧
    ∀ p ∈ (getNextPiece st).2.pieceBag, p ≠ NoPiece := by
  unfold getNextPiece
  dsimp only
  set st1 := if st.pieceBag.isEmpty = true then initializeBag st else st with hst1
  have hvalid : ∀ p ∈ st1.pieceBag, p ≠ NoPiece := by
    rw [hst1]
    split
    · exact initializeBagList_valid st.rnd
    · exact h
  cases hb : st1.pieceBag with
  | nil =>
    refine ⟨pieceOfNat_lt_ne _ (Nat.mod_lt _ (by decide)), ?_⟩
    intro q hq
    simp at hq
  | cons p rest =>
    have hp : p ≠ NoPiece := hvalid p (by rw [hb]; exact List.mem_cons_self p rest)
    dsimp only
    cases hr : rest.isEmpty
    · simp only [hr, Bool.false_eq_true, if_false]
      refine ⟨hp, ?_⟩
      intro q hq
      exact hvalid q (by rw [hb]; exact List.mem_cons_of_mem p (by simpa using hq))
    · simp only [hr, if_true]
      refine ⟨hp, ?_⟩
      simpa [initializeBag] using initializeBagList_valid st1.rnd

/-- Seven draws from a full bag return exactly the bag contents in
order and end with a freshly refilled bag. -/
theorem drawsN_seven (st : GameState) (h7 : st.pieceBag.length = 7) :
    (drawsN 7 st).1 = st.pieceBag ∧
    (drawsN 7 st).2.pieceBag = initializeBagList st.rnd := by
  rcases hbag : st.pieceBag with
    _ | ⟨a, _ | ⟨b, _ | ⟨c, _ | ⟨d, _ | ⟨e, _ | ⟨f, _ | ⟨g, _ | ⟨x, t⟩⟩⟩⟩⟩⟩⟩⟩ <;>
    rw [hbag] at h7 <;> simp at h7
  show (drawsN (6 + 1) st).1 = _ ∧ _
  simp [drawsN, getNextPiece, hbag, initializeBag]

/-- C6: once the bag is a permutation of the 7 piece kinds (as every
refill makes it), each epoch of 7 draws returns each of the 7 kinds
exactly once (the draws are a permutation of the kinds) and leaves the
bag a fresh permutation again; and getNextPiece never yields the
NoPiece sentinel on a bag free of it. -/
theorem c6_bag_epoch :
    (∀ st : GameState, st.pieceBag.Perm allPieces →
      (drawsN 7 st).1.Perm allPieces ∧ (drawsN 7 st).2.pieceBag.Perm allPieces) ∧
    (∀ st : GameState, (∀ p ∈ st.pieceBag, p ≠ NoPiece) →
      (getNextPiece st).1 ≠ NoPiece) := by
  constructor
  · intro st hperm
    have h7 : st.pieceBag.length = 7 := hperm.length_eq
    obtain ⟨hd, hb⟩ := drawsN_seven st h7
    exact ⟨hd ▸ hperm, hb ▸ initializeBagList_perm st.rnd⟩
  · intro st h
    exact (getNextPiece_valid st h).1

/-- The state used to witness C6. -/
def c6st : GameState :=
  { board := fun _ _ => Block.Empty,
    activeShape := ⟨⟨0, 0⟩, ⟨0, 1⟩, ⟨0, 2⟩, ⟨1, 1⟩⟩,
    currentPiece := Piece.TPiece, nextPiece := Piece.SPiece,
    holdPiece := Piece.NoPiece, canHold := true, rotationState := 0,
    score := 0, gameOver := false, lastMovementWasRotation := false,
    lastRotationPoint := ⟨⟨0, 0⟩, ⟨0, 0⟩, ⟨0, 0⟩, ⟨0, 0⟩⟩,
    pieceBag := [ZPiece, TPiece, SPiece, OPiece, LPiece, JPiece, IPiece],
    rnd := fun k => 3 * k + 1 }

/-- Witness for C6 at a concrete state. -/
theorem c6_bag_epoch_witness :
    ((drawsN 7 c6st).1.Perm allPieces ∧ (drawsN 7 c6st).2.pieceBag.Perm allPieces) ∧
    (getNextPiece c6st).1 ≠ NoPiece :=
  ⟨c6_bag_epoch.1 c6st (by decide), c6_bag_epoch.2 c6st (by decide)⟩

/-! ## Claim C10 -/

/-- A point lies inside the 22 x 10 grid. -/
abbrev ptOk (q : Point) : Prop := 0 ≤ q.row ∧ q.row ≤ 21 ∧ 0 ≤ q.col ∧ q.col ≤ 9

/-- All four cells of a shape lie inside the grid, so every array access
through it (drawPiece, isTouchingFloor, collision tests) is in bounds. -/
abbrev InBounds (s : Shape) : Prop := ptOk s.p0 ∧ ptOk s.p1 ∧ ptOk s.p2 ∧ ptOk s.p3

theorem checkCollision_false_inBounds (b : Board) (s : Shape)
    (h : checkCollision b s = false) : InBounds s := by
  unfold checkCollision cellBlocked at h
  simp only [Bool.or_eq_false_iff, decide_eq_false_iff_not, not_lt] at h
  omega

theorem tryKicks_some_noCollide (b : Board) (ns : Shape) (l : List Kick) (sh : Shape)
    (h : tryKicks b ns l = some sh) : checkCollision b sh = false := by
  induction l with
  | nil => simp [tryKicks] at h
  | cons k rest ih =>
    rw [tryKicks_cons] at h
    by_cases hc : checkCollision b (moveShape k.2 k.1 ns) = true
    · rw [if_pos hc] at h
      exact ih h
    · rw [if_neg hc] at h
      cases h
      simpa using hc

theorem or3_some {o1 o2 o3 : Option Shape} {sh : Shape}
    (h : o1.or (o2.or o3) = some sh) :
    o1 = some sh ∨ o2 = some sh ∨ o3 = some sh := by
  cases o1 <;> cases o2 <;> cases o3 <;> simp_all [Option.or]

/-- Every spawn placement (vertical offset 20, horizontal offset below
the rand.Intn bound of the piece) is inside the grid. -/
theorem spawn_inBounds (p : Piece) (hp : p ≠ NoPiece) (m : Nat) :
    InBounds (moveShape 20 (Int.ofNat (m % spawnIntnBound p)) (getShapeFromPiece p)) := by
  cases p <;> simp only [spawnIntnBound, getShapeFromPiece, moveShape,
    reduceCtorEq, if_true, if_false, ite_true, ite_false] <;>
    first
      | exact absurd rfl hp
      | (refine ⟨⟨?_, ?_, ?_, ?_⟩, ⟨?_, ?_, ?_, ?_⟩, ⟨?_, ?_, ?_, ?_⟩, ⟨?_, ?_, ?_, ?_⟩⟩ <;>
          simp <;> omega)

theorem addPiece_activeShape (st : GameState) :
    (addPiece st).activeShape =
      moveShape 20 (Int.ofNat (st.rnd 0 % spawnIntnBound st.nextPiece))
        (getShapeFromPiece st.nextPiece) := by
  unfold addPiece
  simp only [(getNextPiece_core _).2.1]

theorem addPiece_inBounds (st : GameState) (hnp : st.nextPiece ≠ NoPiece) :
    InBounds (addPiece st).activeShape := by
  rw [addPiece_activeShape]
  exact spawn_inBounds st.nextPiece hnp (st.rnd 0)

theorem movePiece_inBounds (st : GameState) (dir : Int) (h : InBounds st.activeShape) :
    InBounds (movePiece st dir).2.activeShape := by
  unfold movePiece
  dsimp only
  cases hc : checkCollision (drawPiece st.board st.activeShape st.activeShape Block.Empty)
      (moveShape 0 dir st.activeShape)
  · rw [if_neg (by simp [hc])]
    exact checkCollision_false_inBounds _ _ hc
  · rw [if_pos (by simp [hc])]
    exact h

theorem rotatePiece_inBounds (st : GameState) (dir : Int) (h : InBounds st.activeShape) :
    InBounds (rotatePiece st dir).2.activeShape := by
  unfold rotatePiece
  by_cases hO : st.currentPiece = OPiece
  · rw [if_pos hO]
    exact h
  · rw [if_neg hO]
    dsimp only
    cases hA : (tryKicks (drawPiece st.board st.activeShape st.activeShape Block.Empty)
        (if dir = 1 then rotateShape st.currentPiece st.activeShape
         else rotateShapeCounterClockwise st.currentPiece st.activeShape)
        (wallKickData st.currentPiece st.rotationState dir)).or
        ((tryKicks (drawPiece st.board st.activeShape st.activeShape Block.Empty)
          (if dir = 1 then rotateShape st.currentPiece st.activeShape
           else rotateShapeCounterClockwise st.currentPiece st.activeShape)
          (getExtraIKicks st.rotationState dir)).or
          (tryKicks (drawPiece st.board st.activeShape st.activeShape Block.Empty)
            (if dir = 1 then rotateShape st.currentPiece st.activeShape
             else rotateShapeCounterClockwise st.currentPiece st.activeShape)
            lastResortKicks)) with
    | some sh =>
      rcases or3_some hA with hsome | hsome | hsome <;>
        exact checkCollision_false_inBounds _ _ (tryKicks_some_noCollide _ _ _ _ hsome)
    | none => exact h

theorem applyGravity_inBounds (st : GameState) (h : InBounds st.activeShape) :
    InBounds (applyGravity st).2.activeShape := by
  unfold applyGravity
  dsimp only
  cases hc : checkCollision (drawPiece st.board st.activeShape st.activeShape Block.Empty)
      (moveShapeDown st.activeShape)
  · rw [if_neg (by simp)]
    exact checkCollision_false_inBounds _ _ hc
  · rw [if_pos rfl]
    exact h

theorem applyGravity_nextPiece (st : GameState) :
    (applyGravity st).2.nextPiece = st.nextPiece := by
  unfold applyGravity
  dsimp only
  split <;> rfl

theorem lockPiece_inBounds (st : GameState) (h : InBounds st.activeShape)
    (hnp : st.nextPiece ≠ NoPiece) : InBounds (lockPiece st).activeShape := by
  unfold lockPiece
  split
  · exact h
  · exact addPiece_inBounds (checkRowCompletion st st.activeShape) hnp

theorem instafallAux_core (n : Nat) (st : GameState) (h : InBounds st.activeShape) :
    InBounds (instafallAux n st).activeShape ∧
    (instafallAux n st).nextPiece = st.nextPiece := by
  induction n generalizing st with
  | zero => exact ⟨h, rfl⟩
  | succ n ih =>
    unfold instafallAux
    dsimp only
    cases hc : (applyGravity st).1
    · rw [if_neg (by simp)]
      obtain ⟨h1, h2⟩ := ih (applyGravity st).2 (applyGravity_inBounds st h)
      exact ⟨h1, h2.trans (applyGravity_nextPiece st)⟩
    · rw [if_pos rfl]
      exact ⟨applyGravity_inBounds st h, applyGravity_nextPiece st⟩

theorem holdPieceOp_inBounds (st : GameState) (h : InBounds st.activeShape)
    (hnp : st.nextPiece ≠ NoPiece) : InBounds (holdPieceOp st).activeShape := by
  unfold holdPieceOp
  dsimp only
  split
  · exact h
  · split
    · exact addPiece_inBounds _ hnp
    · next hhold =>
      exact spawn_inBounds st.holdPiece hhold (st.rnd 0)

/-- C10: every engine operation keeps the four cells of the active shape
inside rows [0,21] and columns [0,9], so the unchecked accesses through
the active shape stay in bounds.  Operations that spawn a piece assume
the drawn kind is a real piece (true in every reachable state). -/
theorem c10_operations_keep_shape_in_bounds :
    (∀ st : GameState, st.nextPiece ≠ NoPiece → InBounds (addPiece st).activeShape) ∧
    (∀ (st : GameState) (dir : Int), InBounds st.activeShape →
      InBounds (movePiece st dir).2.activeShape) ∧
    (∀ (st : GameState) (dir : Int), InBounds st.activeShape →
      InBounds (rotatePiece st dir).2.activeShape) ∧
    (∀ st : GameState, InBounds st.activeShape → InBounds (applyGravity st).2.activeShape) ∧
    (∀ st : GameState, InBounds st.activeShape → st.nextPiece ≠ NoPiece →
      InBounds (holdPieceOp st).activeShape) ∧
    (∀ st : GameState, InBounds st.activeShape → st.nextPiece ≠ NoPiece →
      InBounds (lockPiece st).activeShape) ∧
    (∀ st : GameState, InBounds st.activeShape → st.nextPiece ≠ NoPiece →
      InBounds (instafall st).activeShape) := by
  refine ⟨fun st hnp => addPiece_inBounds st hnp,
    fun st dir h => movePiece_inBounds st dir h,
    fun st dir h => rotatePiece_inBounds st dir h,
    fun st h => applyGravity_inBounds st h,
    fun st h hnp => holdPieceOp_inBounds st h hnp,
    fun st h hnp => lockPiece_inBounds st h hnp,
    fun st h hnp => ?_⟩
  unfold instafall
  obtain ⟨h1, h2⟩ := instafallAux_core 23 st h
  exact lockPiece_inBounds _ h1 (h2 ▸ hnp)

/-- The state used to witness C10. -/
def c10st : GameState :=
  { board := fun r c =>
      if r = 0 ∧ (c = 0 ∨ c = 1 ∨ c = 2 ∨ c = 3) then Block.Siniy else Block.Empty,
    activeShape := ⟨⟨0, 0⟩, ⟨0, 1⟩, ⟨0, 2⟩, ⟨0, 3⟩⟩,
    currentPiece := Piece.IPiece, nextPiece := Piece.TPiece,
    holdPiece := Piece.NoPiece, canHold := true, rotationState := 0,
    score := 0, gameOver := false, lastMovementWasRotation := false,
    lastRotationPoint := ⟨⟨0, 0⟩, ⟨0, 0⟩, ⟨0, 0⟩, ⟨0, 0⟩⟩,
    pieceBag := [ZPiece, TPiece, SPiece, OPiece, LPiece, JPiece, IPiece],
    rnd := fun _ => 5 }

/-- Witness for C10 at a concrete state. -/
theorem c10_operations_keep_shape_in_bounds_witness :
    InBounds (addPiece c10st).activeShape ∧
    InBounds (movePiece c10st 1).2.activeShape ∧
    InBounds (rotatePiece c10st 1).2.activeShape ∧
    InBounds (applyGravity c10st).2.activeShape ∧
    InBounds (holdPieceOp c10st).activeShape ∧
    InBounds (lockPiece c10st).activeShape ∧
    InBounds (instafall c10st).activeShape :=
  ⟨c10_operations_keep_shape_in_bounds.1 c10st (by decide),
   c10_operations_keep_shape_in_bounds.2.1 c10st 1 (by decide),
   c10_operations_keep_shape_in_bounds.2.2.1 c10st 1 (by decide),
   c10_operations_keep_shape_in_bounds.2.2.2.1 c10st (by decide),
   c10_operations_keep_shape_in_bounds.2.2.2.2.1 c10st (by decide) (by decide),
   c10_operations_keep_shape_in_bounds.2.2.2.2.2.1 c10st (by decide) (by decide),
   c10_operations_keep_shape_in_bounds.2.2.2.2.2.2 c10st (by decide) (by decide)⟩

end Tetris
